import Mathlib

/-!
Shallow embedding of `src/server/mock_server.py` (mock WebRTC signaling and
media server) together with proofs about its observable behaviour.

Conventions of the embedding:
* Python machine integers are `Nat`/`Int`; wall-clock instants and durations
  are exact rationals (`ℚ`).
* Calls into the external libraries (aiortc, aiohttp, av, os) are modelled as
  emitted `Effect` values or as explicit state updates on the small state
  structures below; fallible Python code returns `Except PyErr`.
* `await asyncio.sleep d` is idealised as advancing the clock by exactly `d`
  (real sleeps only take longer, which can only strengthen the lower-bound
  pacing results proved here).
-/

/-! ## Definitions -/

/-- Sample rate of the synthetic audio source: `SAMPLE_RATE = 48000`. -/
def SAMPLE_RATE : ℕ := 48000

/-- Frame duration in seconds, `FRAME_DURATION = 0.02` (20 ms), kept exact as a rational. -/
def FRAME_DURATION : ℚ := 1 / 50

/-- Samples per frame: `int(SAMPLE_RATE * FRAME_DURATION) = 960`. -/
def SAMPLES_PER_FRAME : ℕ := 960

/-- The fixed pool of canned transcription sentences (`TRANSCRIPTION_SAMPLES`). -/
def TRANSCRIPTION_SAMPLES : List String :=
  [ "Patient presents with mild respiratory symptoms.",
    "Blood pressure reading: 120/80 mmHg, within normal range.",
    "Heart rate is 72 bpm, rhythm appears regular.",
    "Oxygen saturation at 98% on room air.",
    "No signs of acute distress observed.",
    "Lung auscultation reveals clear bilateral breath sounds.",
    "Temperature is 98.6°F, afebrile.",
    "Patient reports no allergies to medications." ]

/-- Mutable state of a `SyntheticAudioTrack`: the running sample counter
`self._timestamp` and the wall-clock start instant `self._start`. -/
structure TrackState where
  timestamp : ℕ
  start : ℚ
deriving Repr

/-- An `av.AudioFrame` as produced by `SyntheticAudioTrack.recv`: format and
layout strings, declared sample count, sample rate, presentation timestamp,
and the payload written into `planes[0]`.  The per-sample values are produced
by a pointwise wave function `w : ℕ → ℤ` applied to the absolute sample index;
in the source `w k = int16(sin(2*pi*440*k/48000) * 32767 * 0.3)`, a
floating-point computation that the embedding keeps abstract. -/
structure AudioFrame where
  format : String
  layout : String
  samples : ℕ
  sample_rate : ℕ
  pts : ℕ
  data : List ℤ
deriving Repr

/-- One call of `SyntheticAudioTrack.recv`, parameterised by the pointwise
wave function `w` and the current wall-clock time `now` (`time.time()`).
Returns the produced frame, the updated track state, and the wall-clock
instant at which the frame is returned (after the pacing sleep). -/
def SyntheticAudioTrack.recv (w : ℕ → ℤ) (st : TrackState) (now : ℚ) :
    AudioFrame × TrackState × ℚ :=
  let elapsed := now - st.start
  let expected : ℚ := (st.timestamp : ℚ) / (SAMPLE_RATE : ℚ)
  let wait := expected - elapsed
  let emit := if 0 < wait then now + wait else now
  let data := (List.range SAMPLES_PER_FRAME).map (fun i => w (i + st.timestamp))
  let frame : AudioFrame :=
    { format := "s16", layout := "mono", samples := SAMPLES_PER_FRAME,
      sample_rate := SAMPLE_RATE, pts := st.timestamp, data := data }
  (frame, { st with timestamp := st.timestamp + SAMPLES_PER_FRAME }, emit)

/-- Track state before the `n`-th call to `recv`, for a fresh track started at
wall-clock instant `start` and an arbitrary schedule `sched` of wall-clock
times at which the consumer calls `recv`. -/
def trackStateAt (w : ℕ → ℤ) (start : ℚ) (sched : ℕ → ℚ) : ℕ → TrackState
  | 0 => { timestamp := 0, start := start }
  | n + 1 => (SyntheticAudioTrack.recv w (trackStateAt w start sched n) (sched n)).2.1

/-- The `n`-th frame (0-indexed) produced by a fresh `SyntheticAudioTrack`. -/
def nthFrame (w : ℕ → ℤ) (start : ℚ) (sched : ℕ → ℚ) (n : ℕ) : AudioFrame :=
  (SyntheticAudioTrack.recv w (trackStateAt w start sched n) (sched n)).1

/-- The wall-clock instant at which the `n`-th `recv` call returns its frame. -/
def nthEmitTime (w : ℕ → ℤ) (start : ℚ) (sched : ℕ → ℚ) (n : ℕ) : ℚ :=
  (SyntheticAudioTrack.recv w (trackStateAt w start sched n) (sched n)).2.2

/-- A `transcription` message as sent over the socket: the canned text and the
`time.time()` value at the moment of sending. -/
structure TranscriptionMsg where
  text : String
  timestamp : ℚ
deriving Repr, DecidableEq

/-- State of the `send_transcriptions` loop before its `n`-th iteration: the
cursor `idx` into the canned pool and the current wall-clock time.  Each
iteration sleeps 3 seconds, sends one message, and increments `idx`. -/
def emitterState (start : ℚ) : ℕ → ℕ × ℚ
  | 0 => (0, start)
  | n + 1 => ((emitterState start n).1 + 1, (emitterState start n).2 + 3)

/-- The `n`-th (0-indexed) message sent by `send_transcriptions`, for a task
started at wall-clock instant `start`.  The body first sleeps 3 seconds, then
reads `TRANSCRIPTION_SAMPLES[idx % len(TRANSCRIPTION_SAMPLES)]` (the modulus
keeps the index in bounds, so total `getD` access is faithful). -/
def nthTranscription (start : ℚ) (n : ℕ) : TranscriptionMsg :=
  { text := TRANSCRIPTION_SAMPLES.getD
      ((emitterState start n).1 % TRANSCRIPTION_SAMPLES.length) ""
    timestamp := (emitterState start n).2 + 3 }

/-- JSON values as produced by `json.loads`; Python `None` is `null`.
Numbers are restricted to integers (no claim depends on JSON fractions). -/
inductive Json where
  | null
  | bool (b : Bool)
  | num (n : ℤ)
  | str (s : String)
  | arr (elems : List Json)
  | obj (fields : List (String × Json))

/-- Exceptions the handler body can raise while processing one message. -/
inductive PyErr where
  | jsonDecodeError
  | keyError (key : String)
  | attributeError
deriving DecidableEq, Repr

/-- Lookup of a key in a parsed JSON object (Python dict built by
`json.loads`; keys are unique, so first match is the match). -/
def lookupField : List (String × Json) → String → Option Json
  | [], _ => none
  | (k, v) :: rest, key => if k = key then some v else lookupField rest key

/-- Python `data.get(key, default)`: on a dict, the stored value or the
default; on any non-dict value the attribute access raises AttributeError. -/
def Json.get : Json → String → Json → Except PyErr Json
  | .obj fs, key, dflt => .ok ((lookupField fs key).getD dflt)
  | _, _, _ => .error .attributeError

/-- Python `data[key]` subscription on a dict: KeyError when absent.  (Only
reached in the handler after `data.get` has succeeded, hence on dicts.) -/
def Json.getItem : Json → String → Except PyErr Json
  | .obj fs, key =>
    match lookupField fs key with
    | some v => .ok v
    | none => .error (.keyError key)
  | _, _ => .error .attributeError

/-- Python truthiness of a JSON value (`if candidate_str:`). -/
def Json.truthy : Json → Bool
  | .null => false
  | .bool b => b
  | .num n => n != 0
  | .str s => s != ""
  | .arr elems => !elems.isEmpty
  | .obj fields => !fields.isEmpty

/-- Python `x == "lit"` for a JSON value: true exactly for the equal string. -/
def Json.isStr : Json → String → Bool
  | .str s, lit => s == lit
  | _, _ => false

/-- Discriminates dict values from all other JSON values. -/
def Json.isObj : Json → Bool
  | .obj _ => true
  | _ => false

/-- Result of `json.loads` on an inbound text payload.  The wire string is
represented by its parse: `some j` for a payload parsing to `j`, `none` for a
payload the JSON parser rejects, on which `json.loads` raises. -/
def jsonLoads : Option Json → Except PyErr Json
  | some j => .ok j
  | none => .error .jsonDecodeError

/-- `pc.connectionState` values of the peer connection. -/
inductive ConnState where
  | new
  | connecting
  | connected
  | disconnected
  | failed
  | closed
deriving DecidableEq, Repr

/-- The aiortc `MediaRecorder` handle, abstracted to whether `stop` has
already taken effect (the library makes `stop` a no-op on a stopped
recorder). -/
structure RecorderH where
  stopped : Bool
deriving DecidableEq, Repr

/-- The asyncio task handle for `send_transcriptions`: whether cancellation
has been requested, and whether the task has completed. -/
structure TaskH where
  cancelled : Bool
  done : Bool
deriving DecidableEq, Repr

/-- The `RTCPeerConnection` as far as the handler observes it. -/
structure PC where
  connectionState : ConnState
  remoteDescription : Option Json
  localDescription : Option String

/-- Per-session state of `websocket_handler`: the peer connection and the
handler's local variables `recorder`, `transcription_task`, and
`recording_path`. -/
structure Session where
  pc : PC
  recorder : Option RecorderH
  transcription_task : Option TaskH
  recording_path : String

/-- Calls the handler makes into the external libraries and over the socket,
in program order. -/
inductive Effect where
  | makedirs (dir : String)
  | setRemoteDescription (sdp : Json)
  | addTrack
  | createAnswer
  | setLocalDescription (sdp : String)
  | sendJson (payload : Json)
  | startTranscriptionTask
  | addIceCandidate (candidate sdpMid sdpMLineIndex : Json)
  | createRecorder (path : String)
  | addTrackToRecorder (kind : String)
  | recorderStart (path : String)
  | recorderStopCall
  | taskCancelCall
  | pcClose

/-- Python `int()` on a float/rational: truncation toward zero. -/
def pyInt (q : ℚ) : ℤ := if 0 ≤ q then ⌊q⌋ else ⌈q⌉

/-- Little-endian base-10 digits of `n`, with fuel for structural recursion
(`fuel ≥ n` suffices, see `natDigitsAux_val`). -/
def natDigitsAux : ℕ → ℕ → List ℕ
  | 0, _ => []
  | fuel + 1, n => if n = 0 then [] else n % 10 :: natDigitsAux fuel (n / 10)

/-- Little-endian base-10 digits of `n` (empty for 0). -/
def natDigits (n : ℕ) : List ℕ := natDigitsAux n n

/-- The character for one decimal digit. -/
def digitChar : ℕ → Char
  | 0 => '0'
  | 1 => '1'
  | 2 => '2'
  | 3 => '3'
  | 4 => '4'
  | 5 => '5'
  | 6 => '6'
  | 7 => '7'
  | 8 => '8'
  | 9 => '9'
  | _ => '?'

/-- Decimal rendering of a natural number, as Python string formatting
produces it. -/
def natStr (n : ℕ) : String :=
  if n = 0 then "0" else (((natDigits n).map digitChar).reverse).asString

/-- Decimal rendering of an integer, as Python string formatting produces it. -/
def intStr (i : ℤ) : String :=
  if i < 0 then "-" ++ natStr i.natAbs else natStr i.toNat

/-- The recordings directory, `os.path.join(os.path.dirname(__file__),
"recordings")` with the script directory elided. -/
def recordings_dir : String := "recordings"

/-- The session's recording file name, from the session start instant `t`:
the f-string `recording_{int(time.time())}.mp4`. -/
def recordingName (t : ℚ) : String := "recording_" ++ intStr (pyInt t) ++ ".mp4"

/-- The session's full recording path, `os.path.join(recordings_dir, ...)`. -/
def recordingPath (t : ℚ) : String := recordings_dir ++ "/" ++ recordingName t

/-- `os.makedirs(d, exist_ok=True)` over a directory set: creates the
directory when absent and is a silent no-op when present. -/
def makedirs (fs : List String) (d : String) : List String :=
  if d ∈ fs then fs else d :: fs

/-- Session state at the top of `websocket_handler`, for a session whose
`time.time()` at start is `t`: fresh peer connection, `recorder = None`,
`transcription_task = None`, and the timestamped recording path. -/
def initialSession (t : ℚ) : Session :=
  { pc := { connectionState := .new, remoteDescription := none, localDescription := none }
    recorder := none
    transcription_task := none
    recording_path := recordingPath t }

/-- One frame delivered by `async for msg in ws`.  A TEXT frame carries the
parse of its payload (see `jsonLoads`); the close-family and error frames
carry nothing the handler consults. -/
inductive WSMsg where
  | text (parsed : Option Json)
  | binary
  | close
  | closing
  | closed
  | error

/-- How the receive loop ended: a close-family frame, an error frame, the
iterator running out (abrupt disconnect), or an uncaught exception
propagating out of the loop body. -/
inductive LoopOutcome where
  | closeFrame
  | errorFrame
  | exhausted
  | raised (e : PyErr)
deriving DecidableEq, Repr

/-- Processing of one TEXT frame by the loop body, parameterised by the SDP
string `answerSdp` that `pc.createAnswer()` returns for this session.
Returns the updated session and the calls made, in order, or the exception
that escapes the loop body. -/
def handleText (answerSdp : String) (sess : Session) (payload : Option Json) :
    Except PyErr (Session × List Effect) := do
  let data ← jsonLoads payload
  let msg_type ← data.get "type" .null
  if msg_type.isStr "offer" then
    let sdp ← data.getItem "sdp"
    let pc2 := { sess.pc with remoteDescription := some sdp, localDescription := some answerSdp }
    let answerPayload := Json.obj [("type", .str "answer"), ("sdp", .str (pc2.localDescription.getD ""))]
    let sess2 := { sess with pc := pc2, transcription_task := some { cancelled := false, done := false } }
    .ok (sess2,
      [ .setRemoteDescription sdp, .addTrack, .createAnswer,
        .setLocalDescription answerSdp, .sendJson answerPayload,
        .startTranscriptionTask ])
  else if msg_type.isStr "candidate" then
    let candidate_str ← data.get "candidate" (.str "")
    let sdp_mid ← data.get "sdpMid" (.str "")
    let sdp_mline_index ← data.get "sdpMLineIndex" (.num 0)
    if candidate_str.truthy then
      .ok (sess, [.addIceCandidate candidate_str sdp_mid sdp_mline_index])
    else
      .ok (sess, [])
  else
    .ok (sess, [])

/-- The `async for msg in ws` loop: TEXT frames are processed (an uncaught
exception aborts the whole loop), BINARY falls through every branch, the
close family and ERROR break out. -/
def runLoop (answerSdp : String) (sess : Session) :
    List WSMsg → Session × List Effect × LoopOutcome
  | [] => (sess, [], .exhausted)
  | .text p :: rest =>
    match handleText answerSdp sess p with
    | .error e => (sess, [], .raised e)
    | .ok (sess2, effs) =>
      let r := runLoop answerSdp sess2 rest
      (r.1, effs ++ r.2.1, r.2.2)
  | .binary :: rest => runLoop answerSdp sess rest
  | .close :: _ => (sess, [], .closeFrame)
  | .closing :: _ => (sess, [], .closeFrame)
  | .closed :: _ => (sess, [], .closeFrame)
  | .error :: _ => (sess, [], .errorFrame)

/-- The `if recorder: await recorder.stop()` block.  The aiortc recorder's
`stop` is a no-op once the recorder is stopped, so a stop takes effect (count
1) only on a running recorder. -/
def stopIfPresent : Option RecorderH → Option RecorderH × ℕ
  | none => (none, 0)
  | some r => (some { stopped := true }, if r.stopped then 0 else 1)

/-- The `if transcription_task and not transcription_task.done():
transcription_task.cancel()` block.  Cancelling a task whose cancellation is
already pending requests nothing new, so a cancel takes effect (count 1) only
on a live, not-yet-cancelled task. -/
def cancelIfActive : Option TaskH → Option TaskH × ℕ
  | none => (none, 0)
  | some t =>
    if t.done then (some t, 0)
    else (some { t with cancelled := true }, if t.cancelled then 0 else 1)

/-- The `connectionstatechange` callback: on `failed` or `closed`, stop the
recorder if present and cancel the transcription task if running.  Returns
the session plus the number of recorder-stops and task-cancels that took
effect. -/
def on_connectionstatechange (sess : Session) (newState : ConnState) :
    Session × ℕ × ℕ :=
  let sess1 := { sess with pc := { sess.pc with connectionState := newState } }
  if newState = .failed ∨ newState = .closed then
    let rp := stopIfPresent sess1.recorder
    let tp := cancelIfActive sess1.transcription_task
    ({ sess1 with recorder := rp.1, transcription_task := tp.1 }, rp.2, tp.2)
  else (sess1, 0, 0)

/-- The cleanup block after the receive loop: cancel the task if running,
stop the recorder if present (errors swallowed), then `await pc.close()`,
which drives the connection state to `closed` and fires the
`connectionstatechange` callback once more unless it is already there. -/
def disconnectCleanup (sess : Session) : Session × ℕ × ℕ :=
  let tp := cancelIfActive sess.transcription_task
  let rp := stopIfPresent sess.recorder
  let sess1 := { sess with recorder := rp.1, transcription_task := tp.1 }
  if sess1.pc.connectionState = .closed then (sess1, rp.2, tp.2)
  else
    let nxt := on_connectionstatechange sess1 .closed
    (nxt.1, rp.2 + nxt.2.1, tp.2 + nxt.2.2)

/-- The independent teardown triggers of a session: a peer-connection state
event, the post-loop cleanup (reached on a close frame, a socket error, or an
abrupt disconnect), or the cooperative scheduler letting a cancelled
transcription task observe its `CancelledError` and finish. -/
inductive TeardownTrigger where
  | connectionStateChange (s : ConnState)
  | socketTeardown
  | taskSettles

/-- Effect of one teardown trigger on the session: the updated session, the
recorder-stops that took effect, and the task-cancels that took effect. -/
def applyTrigger (sess : Session) : TeardownTrigger → Session × ℕ × ℕ
  | .connectionStateChange s => on_connectionstatechange sess s
  | .socketTeardown => disconnectCleanup sess
  | .taskSettles =>
    match sess.transcription_task with
    | some t =>
      if t.cancelled then
        ({ sess with transcription_task := some { t with done := true } }, 0, 0)
      else (sess, 0, 0)
    | none => (sess, 0, 0)

/-- A whole sequence of teardown triggers, accumulating effective
recorder-stops and task-cancels. -/
def runTriggers (sess : Session) : List TeardownTrigger → Session × ℕ × ℕ
  | [] => (sess, 0, 0)
  | ev :: rest =>
    let p := applyTrigger sess ev
    let r := runTriggers p.1 rest
    (r.1, p.2.1 + r.2.1, p.2.2 + r.2.2)

/-- How many recorder-stops can still take effect: 1 for a running recorder,
0 otherwise. -/
def optStopBudget : Option RecorderH → ℕ
  | none => 0
  | some r => if r.stopped then 0 else 1

/-- How many task-cancels can still take effect: 1 for a live un-cancelled
task, 0 otherwise. -/
def optCancelBudget : Option TaskH → ℕ
  | none => 0
  | some t => if t.cancelled ∨ t.done then 0 else 1

/-- True when no running recorder is left (either none exists or it has been
stopped). -/
def recorderDown : Option RecorderH → Bool
  | none => true
  | some r => r.stopped

/-- True when no live un-cancelled transcription task is left. -/
def taskDown : Option TaskH → Bool
  | none => true
  | some t => t.cancelled || t.done

/-- The `track` callback: lazily create the single `MediaRecorder` for the
session's recording path, attach the track, and start recording once a video
track arrives. -/
def on_track (sess : Session) (kind : String) : Session × List Effect :=
  match sess.recorder with
  | none =>
    ({ sess with recorder := some { stopped := false } },
      [Effect.createRecorder sess.recording_path, Effect.addTrackToRecorder kind] ++
        (if kind = "video" then [Effect.recorderStart sess.recording_path] else []))
  | some _ =>
    (sess, [Effect.addTrackToRecorder kind] ++
      (if kind = "video" then [Effect.recorderStart sess.recording_path] else []))

/-- A sequence of incoming tracks, by their kinds. -/
def runTracks (sess : Session) : List String → Session × List Effect
  | [] => (sess, [])
  | k :: rest =>
    let p := on_track sess k
    let r := runTracks p.1 rest
    (r.1, p.2 ++ r.2)

/-- Number of `MediaRecorder(...)` constructions in an effect trace. -/
def countCreates (effs : List Effect) : ℕ :=
  (effs.filter fun e => match e with | .createRecorder _ => true | _ => false).length

/-- Teardown calls attempted by the post-loop cleanup block, in order. -/
def cleanupEffects (sess : Session) : List Effect :=
  (match sess.transcription_task with
    | some t => if t.done then [] else [Effect.taskCancelCall]
    | none => []) ++
  (match sess.recorder with
    | some _ => [Effect.recorderStopCall]
    | none => []) ++ [Effect.pcClose]

/-- `websocket_handler` end to end for one session: directory creation and
path construction at `time.time() = t`, then the receive loop, then — only
when no exception escaped the loop — the cleanup block. -/
def websocket_handler (t : ℚ) (answerSdp : String) (msgs : List WSMsg) :
    Session × List Effect × LoopOutcome :=
  let entry := [Effect.makedirs recordings_dir]
  let r := runLoop answerSdp (initialSession t) msgs
  match r.2.2 with
  | .raised e => (r.1, entry ++ r.2.1, .raised e)
  | out => ((disconnectCleanup r.1).1, entry ++ r.2.1 ++ cleanupEffects r.1, out)

/-- Number of socket sends in an effect trace. -/
def countSends (effs : List Effect) : ℕ :=
  (effs.filter fun e => match e with | .sendJson _ => true | _ => false).length

/-- Value of a little-endian digit list. -/
def digitsVal : List ℕ → ℕ
  | [] => 0
  | d :: ds => d + 10 * digitsVal ds

/-- One recorder creation can still happen while `recorder is None`. -/
def createBudget : Option RecorderH → ℕ
  | none => 1
  | some _ => 0

/-- The per-effect check that a recorder effect targets the given path. -/
def effPathOk (path : String) : Effect → Bool
  | .createRecorder p => p == path
  | .recorderStart p => p == path
  | _ => true

/-! ## Theorems -/

theorem trackStateAt_timestamp (w : ℕ → ℤ) (start : ℚ) (sched : ℕ → ℚ) (n : ℕ) :
    (trackStateAt w start sched n).timestamp = n * SAMPLES_PER_FRAME := by
  induction n with
  | zero => rfl
  | succ n ih =>
    simp [trackStateAt, SyntheticAudioTrack.recv, ih, Nat.succ_mul]

theorem trackStateAt_start (w : ℕ → ℤ) (start : ℚ) (sched : ℕ → ℚ) (n : ℕ) :
    (trackStateAt w start sched n).start = start := by
  induction n with
  | zero => rfl
  | succ n ih => simp [trackStateAt, SyntheticAudioTrack.recv, ih]

/-- The pacing suspension never lets `recv` return before the instant at which
the current frame is due. -/
theorem recv_emit_ge (w : ℕ → ℤ) (st : TrackState) (now : ℚ) :
    st.start + (st.timestamp : ℚ) / (SAMPLE_RATE : ℚ) ≤
      (SyntheticAudioTrack.recv w st now).2.2 := by
  simp only [SyntheticAudioTrack.recv]
  by_cases h : 0 < (st.timestamp : ℚ) / (SAMPLE_RATE : ℚ) - (now - st.start)
  · simp only [if_pos h]
    linarith
  · simp only [if_neg h]
    push_neg at h
    linarith

theorem emitterState_eq (start : ℚ) (n : ℕ) :
    emitterState start n = (n, start + 3 * n) := by
  induction n with
  | zero => simp [emitterState]
  | succ n ih =>
    simp [emitterState, ih]
    ring

theorem stopIfPresent_budget (r : Option RecorderH) :
    (stopIfPresent r).2 + optStopBudget (stopIfPresent r).1 ≤ optStopBudget r := by
  cases r with
  | none => simp [stopIfPresent, optStopBudget]
  | some r => cases hr : r.stopped <;> simp [stopIfPresent, optStopBudget, hr]

theorem stopIfPresent_down (r : Option RecorderH) :
    recorderDown (stopIfPresent r).1 = true := by
  cases r <;> simp [stopIfPresent, recorderDown]

theorem cancelIfActive_budget (t : Option TaskH) :
    (cancelIfActive t).2 + optCancelBudget (cancelIfActive t).1 ≤ optCancelBudget t := by
  cases t with
  | none => simp [cancelIfActive, optCancelBudget]
  | some t =>
    cases hd : t.done <;> cases hc : t.cancelled <;>
      simp [cancelIfActive, optCancelBudget, hd, hc]

theorem cancelIfActive_down (t : Option TaskH) :
    taskDown (cancelIfActive t).1 = true := by
  cases t with
  | none => simp [cancelIfActive, taskDown]
  | some t => cases hd : t.done <;> simp [cancelIfActive, taskDown, hd]

theorem occ_stop_budget (sess : Session) (s : ConnState) :
    (on_connectionstatechange sess s).2.1 +
      optStopBudget (on_connectionstatechange sess s).1.recorder ≤
      optStopBudget sess.recorder := by
  by_cases h : s = .failed ∨ s = .closed <;>
    simp [on_connectionstatechange, h, stopIfPresent_budget]

theorem occ_cancel_budget (sess : Session) (s : ConnState) :
    (on_connectionstatechange sess s).2.2 +
      optCancelBudget (on_connectionstatechange sess s).1.transcription_task ≤
      optCancelBudget sess.transcription_task := by
  by_cases h : s = .failed ∨ s = .closed <;>
    simp [on_connectionstatechange, h, cancelIfActive_budget]

theorem dc_stop_budget (sess : Session) :
    (disconnectCleanup sess).2.1 +
      optStopBudget (disconnectCleanup sess).1.recorder ≤
      optStopBudget sess.recorder := by
  have h1 := stopIfPresent_budget sess.recorder
  have h2 := occ_stop_budget
    { sess with recorder := (stopIfPresent sess.recorder).1
                transcription_task := (cancelIfActive sess.transcription_task).1 }
    ConnState.closed
  simp only [disconnectCleanup]
  by_cases h : sess.pc.connectionState = ConnState.closed
  · simp only [h, if_true]
    simpa using h1
  · simp only [if_neg h]
    simp only at h2
    omega

theorem dc_cancel_budget (sess : Session) :
    (disconnectCleanup sess).2.2 +
      optCancelBudget (disconnectCleanup sess).1.transcription_task ≤
      optCancelBudget sess.transcription_task := by
  have h1 := cancelIfActive_budget sess.transcription_task
  have h2 := occ_cancel_budget
    { sess with recorder := (stopIfPresent sess.recorder).1
                transcription_task := (cancelIfActive sess.transcription_task).1 }
    ConnState.closed
  simp only [disconnectCleanup]
  by_cases h : sess.pc.connectionState = ConnState.closed
  · simp only [h, if_true]
    simpa using h1
  · simp only [if_neg h]
    simp only at h2
    omega

theorem applyTrigger_stop_budget (sess : Session) (ev : TeardownTrigger) :
    (applyTrigger sess ev).2.1 +
      optStopBudget (applyTrigger sess ev).1.recorder ≤
      optStopBudget sess.recorder := by
  cases ev with
  | connectionStateChange s => exact occ_stop_budget sess s
  | socketTeardown => exact dc_stop_budget sess
  | taskSettles =>
    cases ht : sess.transcription_task with
    | none => simp [applyTrigger, ht]
    | some t => cases hc : t.cancelled <;> simp [applyTrigger, ht, hc]

theorem applyTrigger_cancel_budget (sess : Session) (ev : TeardownTrigger) :
    (applyTrigger sess ev).2.2 +
      optCancelBudget (applyTrigger sess ev).1.transcription_task ≤
      optCancelBudget sess.transcription_task := by
  cases ev with
  | connectionStateChange s => exact occ_cancel_budget sess s
  | socketTeardown => exact dc_cancel_budget sess
  | taskSettles =>
    cases ht : sess.transcription_task with
    | none => simp [applyTrigger, ht]
    | some t =>
      cases hc : t.cancelled <;>
        simp [applyTrigger, ht, hc, optCancelBudget]

theorem runTriggers_stop_budget (sess : Session) (evs : List TeardownTrigger) :
    (runTriggers sess evs).2.1 +
      optStopBudget (runTriggers sess evs).1.recorder ≤
      optStopBudget sess.recorder := by
  induction evs generalizing sess with
  | nil => simp [runTriggers]
  | cons ev rest ih =>
    have h1 := applyTrigger_stop_budget sess ev
    have h2 := ih (applyTrigger sess ev).1
    simp only [runTriggers]
    omega

theorem runTriggers_cancel_budget (sess : Session) (evs : List TeardownTrigger) :
    (runTriggers sess evs).2.2 +
      optCancelBudget (runTriggers sess evs).1.transcription_task ≤
      optCancelBudget sess.transcription_task := by
  induction evs generalizing sess with
  | nil => simp [runTriggers]
  | cons ev rest ih =>
    have h1 := applyTrigger_cancel_budget sess ev
    have h2 := ih (applyTrigger sess ev).1
    simp only [runTriggers]
    omega

theorem optStopBudget_le_one (r : Option RecorderH) : optStopBudget r ≤ 1 := by
  cases r with
  | none => simp [optStopBudget]
  | some r => cases hr : r.stopped <;> simp [optStopBudget, hr]

theorem optCancelBudget_le_one (t : Option TaskH) : optCancelBudget t ≤ 1 := by
  cases t with
  | none => simp [optCancelBudget]
  | some t =>
    cases hc : t.cancelled <;> cases hd : t.done <;> simp [optCancelBudget, hc, hd]

theorem occ_failed_recorderDown (sess : Session) :
    recorderDown (on_connectionstatechange sess ConnState.failed).1.recorder = true := by
  simp [on_connectionstatechange, stopIfPresent_down]

theorem occ_failed_taskDown (sess : Session) :
    taskDown (on_connectionstatechange sess ConnState.failed).1.transcription_task = true := by
  simp [on_connectionstatechange, cancelIfActive_down]

theorem dc_recorderDown (sess : Session) :
    recorderDown (disconnectCleanup sess).1.recorder = true := by
  simp only [disconnectCleanup]
  by_cases h : sess.pc.connectionState = ConnState.closed
  · simp [h, stopIfPresent_down]
  · simp [if_neg h, on_connectionstatechange, stopIfPresent_down]

theorem dc_taskDown (sess : Session) :
    taskDown (disconnectCleanup sess).1.transcription_task = true := by
  simp only [disconnectCleanup]
  by_cases h : sess.pc.connectionState = ConnState.closed
  · simp [h, cancelIfActive_down]
  · simp [if_neg h, on_connectionstatechange, cancelIfActive_down]

theorem dc_connClosed (sess : Session) :
    (disconnectCleanup sess).1.pc.connectionState = ConnState.closed := by
  simp only [disconnectCleanup]
  by_cases h : sess.pc.connectionState = ConnState.closed
  · simp [h]
  · simp [if_neg h, on_connectionstatechange]

/-- C1: for every session, however many independent teardown triggers fire
(peer-connection state change to failed or closed, close frame, socket error,
abrupt disconnect — all reaching `on_connectionstatechange` or the post-loop
cleanup), at most one recorder-stop and at most one transcription-task-cancel
take effect; both teardown actions are attempted on every exit path (the
post-loop cleanup and the failed-state callback each leave no running
recorder and no live un-cancelled task), the cleanup path drives the peer
connection to `closed`, and subsequent teardowns are no-ops. -/
theorem C1_idempotent_teardown (sess : Session) (evs : List TeardownTrigger) :
    (runTriggers sess evs).2.1 ≤ 1 ∧
    (runTriggers sess evs).2.2 ≤ 1 ∧
    recorderDown (applyTrigger sess TeardownTrigger.socketTeardown).1.recorder = true ∧
    taskDown (applyTrigger sess TeardownTrigger.socketTeardown).1.transcription_task = true ∧
    recorderDown (on_connectionstatechange sess ConnState.failed).1.recorder = true ∧
    taskDown (on_connectionstatechange sess ConnState.failed).1.transcription_task = true ∧
    (applyTrigger sess TeardownTrigger.socketTeardown).1.pc.connectionState = ConnState.closed := by
  refine ⟨?_, ?_, ?_, ?_, ?_, ?_, ?_⟩
  · have h1 := runTriggers_stop_budget sess evs
    have h2 := optStopBudget_le_one sess.recorder
    omega
  · have h1 := runTriggers_cancel_budget sess evs
    have h2 := optCancelBudget_le_one sess.transcription_task
    omega
  · exact dc_recorderDown sess
  · exact dc_taskDown sess
  · exact occ_failed_recorderDown sess
  · exact occ_failed_taskDown sess
  · exact dc_connClosed sess

/-- C3: the `n`-th frame (0-indexed) produced by the synthetic audio source
carries `pts = n * 960`: timestamps start at 0 and grow by exactly the frame
sample count 960 on every production, whatever wave function and whatever
call schedule. -/
theorem C3_pts_strictly_increasing (w : ℕ → ℤ) (start : ℚ) (sched : ℕ → ℚ) (n : ℕ) :
    (nthFrame w start sched n).pts = n * 960 := by
  have h := trackStateAt_timestamp w start sched n
  simp only [nthFrame, SyntheticAudioTrack.recv]
  simpa [SAMPLES_PER_FRAME] using h

/-- C4: the transcription emitter cycles through the canned pool of size 8 in
fixed order, wrapping at the end: the `n`-th message bears the sentence at
index `n mod 8`, the first message after the answer bears the first canned
sentence, and messages go out one per 3-second interval (the `n`-th at
`start + 3*(n+1)`). -/
theorem C4_pool_cycling (start : ℚ) (n : ℕ) :
    (nthTranscription start n).text = TRANSCRIPTION_SAMPLES.getD (n % 8) "" ∧
    TRANSCRIPTION_SAMPLES.length = 8 ∧
    (nthTranscription start 0).text = "Patient presents with mild respiratory symptoms." ∧
    (nthTranscription start n).timestamp = start + 3 * (n + 1) := by
  refine ⟨?_, rfl, rfl, ?_⟩
  · simp [nthTranscription, emitterState_eq]
    rfl
  · simp [nthTranscription, emitterState_eq]
    ring

/-- C5: every frame consists of exactly 960 mono s16 samples at 48 kHz, and
the `i`-th sample of the `n`-th frame is the fixed pointwise wave function
(in the source, `int16(sin(2*pi*440*k/48000)*32767*0.3)` as a float
computation) evaluated at the phase-continuous absolute index `n*960 + i`. -/
theorem C5_frame_shape_and_phase (w : ℕ → ℤ) (start : ℚ) (sched : ℕ → ℚ) (n : ℕ) :
    (nthFrame w start sched n).data = (List.range 960).map (fun i => w (n * 960 + i)) ∧
    (nthFrame w start sched n).samples = 960 ∧
    (nthFrame w start sched n).format = "s16" ∧
    (nthFrame w start sched n).layout = "mono" ∧
    (nthFrame w start sched n).sample_rate = 48000 := by
  have h := trackStateAt_timestamp w start sched n
  refine ⟨?_, rfl, rfl, rfl, rfl⟩
  simp only [nthFrame, SyntheticAudioTrack.recv, SAMPLES_PER_FRAME] at h ⊢
  refine List.map_congr_left fun i _ => ?_
  rw [h, Nat.add_comm]

/-- C6: the pacing invariant — the `n`-th frame is never emitted before its
due instant: the emit time is at least `start + n*960/48000`, for every wave
function and every call schedule. -/
theorem C6_no_early_emission (w : ℕ → ℤ) (start : ℚ) (sched : ℕ → ℚ) (n : ℕ) :
    start + (n * 960 : ℚ) / 48000 ≤ nthEmitTime w start sched n := by
  have h := recv_emit_ge w (trackStateAt w start sched n) (sched n)
  rw [trackStateAt_timestamp, trackStateAt_start] at h
  simpa [SAMPLES_PER_FRAME, SAMPLE_RATE] using h

theorem except_ok_bind {ε α β : Type} (x : α) (f : α → Except ε β) :
    (Except.ok x : Except ε α) >>= f = f x := rfl

theorem except_error_bind {ε α β : Type} (e : ε) (f : α → Except ε β) :
    (Except.error e : Except ε α) >>= f = (Except.error e : Except ε β) := rfl

theorem handleText_unparsable (a : String) (sess : Session) :
    handleText a sess none = Except.error PyErr.jsonDecodeError := rfl

theorem runLoop_unparsable (a : String) (sess : Session) (rest : List WSMsg) :
    runLoop a sess (WSMsg.text none :: rest) =
      (sess, [], LoopOutcome.raised PyErr.jsonDecodeError) := rfl

theorem handleText_ignored (a : String) (sess : Session) (fs : List (String × Json))
    (hoffer : Json.isStr ((lookupField fs "type").getD Json.null) "offer" = false)
    (hcand : Json.isStr ((lookupField fs "type").getD Json.null) "candidate" = false) :
    handleText a sess (some (Json.obj fs)) = Except.ok (sess, []) := by
  simp [handleText, jsonLoads, Json.get, except_ok_bind, hoffer, hcand]

theorem runLoop_skip (a : String) (sess : Session) (rest : List WSMsg) (p : Option Json)
    (h : handleText a sess p = Except.ok (sess, [])) :
    runLoop a sess (WSMsg.text p :: rest) = runLoop a sess rest := by
  simp [runLoop, h]

/-- C2 counterexample: the claim says a text message with an unparsable JSON
payload is dropped with the session staying open and continuing with
subsequent messages; on the concrete inbound sequence [unparsable text,
close frame] the loop instead aborts with an uncaught JSONDecodeError before
ever seeing the close frame, so its result differs from the
continue-with-the-rest behaviour the claim requires. -/
theorem C2_counterexample :
    (runLoop "a" (initialSession 0) [WSMsg.text none, WSMsg.close]).2.2 =
      LoopOutcome.raised PyErr.jsonDecodeError ∧
    ¬ runLoop "a" (initialSession 0) [WSMsg.text none, WSMsg.close] =
        runLoop "a" (initialSession 0) [WSMsg.close] := by
  refine ⟨rfl, fun h => ?_⟩
  have h2 := congrArg (fun r => r.2.2) h
  exact LoopOutcome.noConfusion
    (show LoopOutcome.raised PyErr.jsonDecodeError = LoopOutcome.closeFrame from h2)

/-- C2 amended: an inbound text message whose payload is unparsable JSON, or
a JSON-object offer missing its `sdp` field, raises an uncaught exception
that terminates the whole receive loop (not just that message), and the
post-loop cleanup is skipped — the connection does not stay open to handle
subsequent messages. -/
theorem C2_amended_uncaught_error (t : ℚ) (a : String) (sess : Session)
    (rest : List WSMsg) (fs : List (String × Json))
    (htype : lookupField fs "type" = some (Json.str "offer"))
    (hsdp : lookupField fs "sdp" = none) :
    runLoop a sess (WSMsg.text none :: rest) =
      (sess, [], LoopOutcome.raised PyErr.jsonDecodeError) ∧
    runLoop a sess (WSMsg.text (some (Json.obj fs)) :: rest) =
      (sess, [], LoopOutcome.raised (PyErr.keyError "sdp")) ∧
    websocket_handler t a (WSMsg.text none :: rest) =
      (initialSession t, [Effect.makedirs recordings_dir],
        LoopOutcome.raised PyErr.jsonDecodeError) := by
  refine ⟨rfl, ?_, rfl⟩
  have h : handleText a sess (some (Json.obj fs)) =
      Except.error (PyErr.keyError "sdp") := by
    simp [handleText, jsonLoads, Json.get, Json.getItem, except_ok_bind,
      except_error_bind, htype, hsdp, Json.isStr]
  simp [runLoop, h]

/-- Witness for C2 amended at a concrete instant, answer SDP, session and
offer object with no `sdp` field. -/
theorem C2_amended_uncaught_error_witness :
    lookupField [("type", Json.str "offer")] "type" = some (Json.str "offer") ∧
    lookupField [("type", Json.str "offer")] "sdp" = none ∧
    runLoop "x" (initialSession 0)
        [WSMsg.text (some (Json.obj [("type", Json.str "offer")]))] =
      (initialSession 0, [], LoopOutcome.raised (PyErr.keyError "sdp")) :=
  ⟨rfl, rfl,
    (C2_amended_uncaught_error 0 "x" (initialSession 0) []
      [("type", Json.str "offer")] rfl rfl).2.1⟩

/-- C7: a `candidate` message whose candidate string is empty, or which has
no `candidate` field at all, produces no call into the ICE layer and no
error: the message is ignored and the loop continues unchanged into the rest
of the inbound sequence. -/
theorem C7_empty_candidate_ignored (a : String) (sess : Session) (rest : List WSMsg)
    (fs : List (String × Json))
    (htype : lookupField fs "type" = some (Json.str "candidate"))
    (hcand : lookupField fs "candidate" = none ∨
      lookupField fs "candidate" = some (Json.str "")) :
    handleText a sess (some (Json.obj fs)) = Except.ok (sess, []) ∧
    runLoop a sess (WSMsg.text (some (Json.obj fs)) :: rest) = runLoop a sess rest := by
  have h : handleText a sess (some (Json.obj fs)) = Except.ok (sess, []) := by
    rcases hcand with hc | hc <;>
      simp [handleText, jsonLoads, Json.get, except_ok_bind, htype, hc, Json.isStr,
        Json.truthy]
  exact ⟨h, runLoop_skip a sess rest _ h⟩

/-- Witness for C7 at a concrete candidate message with an empty candidate
string. -/
theorem C7_empty_candidate_ignored_witness :
    lookupField [("type", Json.str "candidate"), ("candidate", Json.str "")] "type" =
      some (Json.str "candidate") ∧
    handleText "x" (initialSession 0)
        (some (Json.obj [("type", Json.str "candidate"), ("candidate", Json.str "")])) =
      Except.ok (initialSession 0, []) :=
  ⟨rfl,
    (C7_empty_candidate_ignored "x" (initialSession 0) []
      [("type", Json.str "candidate"), ("candidate", Json.str "")] rfl
      (Or.inr rfl)).1⟩

/-- C8: on a valid offer the handler performs, in order: apply the remote
description, attach the synthetic audio track, create the answer, set the
local description, send exactly one `answer` message carrying the local
description SDP, and only then start the background transcription task. -/
theorem C8_offer_flow (a : String) (sess : Session) (fs : List (String × Json))
    (sdpJ : Json)
    (htype : lookupField fs "type" = some (Json.str "offer"))
    (hsdp : lookupField fs "sdp" = some sdpJ) :
    handleText a sess (some (Json.obj fs)) =
      Except.ok
        ({ sess with
            pc := { sess.pc with remoteDescription := some sdpJ
                                 localDescription := some a }
            transcription_task := some { cancelled := false, done := false } },
          [ Effect.setRemoteDescription sdpJ, Effect.addTrack, Effect.createAnswer,
            Effect.setLocalDescription a,
            Effect.sendJson (Json.obj [("type", Json.str "answer"), ("sdp", Json.str a)]),
            Effect.startTranscriptionTask ]) ∧
    countSends
        [ Effect.setRemoteDescription sdpJ, Effect.addTrack, Effect.createAnswer,
          Effect.setLocalDescription a,
          Effect.sendJson (Json.obj [("type", Json.str "answer"), ("sdp", Json.str a)]),
          Effect.startTranscriptionTask ] = 1 := by
  constructor
  · simp [handleText, jsonLoads, Json.get, Json.getItem, except_ok_bind, htype, hsdp,
      Json.isStr]
  · rfl

/-- Witness for C8 at a concrete offer message. -/
theorem C8_offer_flow_witness :
    lookupField [("type", Json.str "offer"), ("sdp", Json.str "v=0")] "sdp" =
      some (Json.str "v=0") ∧
    handleText "answer-sdp" (initialSession 0)
        (some (Json.obj [("type", Json.str "offer"), ("sdp", Json.str "v=0")])) =
      Except.ok
        ({ initialSession 0 with
            pc := { (initialSession 0).pc with remoteDescription := some (Json.str "v=0")
                                               localDescription := some "answer-sdp" }
            transcription_task := some { cancelled := false, done := false } },
          [ Effect.setRemoteDescription (Json.str "v=0"), Effect.addTrack,
            Effect.createAnswer, Effect.setLocalDescription "answer-sdp",
            Effect.sendJson
              (Json.obj [("type", Json.str "answer"), ("sdp", Json.str "answer-sdp")]),
            Effect.startTranscriptionTask ]) :=
  ⟨rfl,
    (C8_offer_flow "answer-sdp" (initialSession 0)
      [("type", Json.str "offer"), ("sdp", Json.str "v=0")] (Json.str "v=0") rfl rfl).1⟩

/-- C10 counterexample: the claim says any inbound message other than an
offer, candidate, close or error frame causes no side effect and the session
silently continues with the next message; the text message whose payload is
the JSON number 123 (so no `type` field exists) instead raises an uncaught
AttributeError (`data.get` on a non-dict), aborting the loop before the
following close frame is seen. -/
theorem C10_counterexample :
    (runLoop "a" (initialSession 0) [WSMsg.text (some (Json.num 123)), WSMsg.close]).2.2 =
      LoopOutcome.raised PyErr.attributeError ∧
    ¬ runLoop "a" (initialSession 0) [WSMsg.text (some (Json.num 123)), WSMsg.close] =
        runLoop "a" (initialSession 0) [WSMsg.close] := by
  refine ⟨rfl, fun h => ?_⟩
  have h2 := congrArg (fun r => r.2.2) h
  exact LoopOutcome.noConfusion
    (show LoopOutcome.raised PyErr.attributeError = LoopOutcome.closeFrame from h2)

/-- C10 amended: a text message whose payload parses to a JSON object with an
unrecognized or absent `type`, and a binary frame, cause no side effect and
the loop silently continues with the rest; close-family and error frames
break out of the loop; but a text payload that parses to a non-object value
raises an uncaught AttributeError that terminates the loop. -/
theorem C10_amended_ignored_messages (a : String) (sess : Session) (rest : List WSMsg)
    (fs : List (String × Json)) (j : Json)
    (hoffer : Json.isStr ((lookupField fs "type").getD Json.null) "offer" = false)
    (hcand : Json.isStr ((lookupField fs "type").getD Json.null) "candidate" = false)
    (hobj : Json.isObj j = false) :
    handleText a sess (some (Json.obj fs)) = Except.ok (sess, []) ∧
    runLoop a sess (WSMsg.text (some (Json.obj fs)) :: rest) = runLoop a sess rest ∧
    runLoop a sess (WSMsg.binary :: rest) = runLoop a sess rest ∧
    runLoop a sess (WSMsg.text (some j) :: rest) =
      (sess, [], LoopOutcome.raised PyErr.attributeError) ∧
    runLoop a sess (WSMsg.close :: rest) = (sess, [], LoopOutcome.closeFrame) ∧
    runLoop a sess (WSMsg.error :: rest) = (sess, [], LoopOutcome.errorFrame) := by
  have h := handleText_ignored a sess fs hoffer hcand
  refine ⟨h, runLoop_skip a sess rest _ h, rfl, ?_, rfl, rfl⟩
  have hj : handleText a sess (some j) = Except.error PyErr.attributeError := by
    cases j with
    | obj fs2 => simp [Json.isObj] at hobj
    | null => rfl
    | bool b => rfl
    | num n => rfl
    | str s => rfl
    | arr elems => rfl
  simp [runLoop, hj]

/-- Witness for C10 amended at a concrete unknown-type object and the
non-object payload `"hello"`. -/
theorem C10_amended_ignored_messages_witness :
    Json.isObj (Json.str "hello") = false ∧
    handleText "x" (initialSession 0) (some (Json.obj [("type", Json.str "ping")])) =
      Except.ok (initialSession 0, []) ∧
    runLoop "x" (initialSession 0) [WSMsg.text (some (Json.str "hello"))] =
      (initialSession 0, [], LoopOutcome.raised PyErr.attributeError) :=
  ⟨rfl,
    (C10_amended_ignored_messages "x" (initialSession 0) []
      [("type", Json.str "ping")] (Json.str "hello") rfl rfl rfl).1,
    (C10_amended_ignored_messages "x" (initialSession 0) []
      [("type", Json.str "ping")] (Json.str "hello") rfl rfl rfl).2.2.2.1⟩

theorem natDigitsAux_val (fuel : ℕ) : ∀ n : ℕ, n ≤ fuel →
    digitsVal (natDigitsAux fuel n) = n := by
  induction fuel with
  | zero =>
    intro n hn
    have h0 : n = 0 := Nat.le_zero.mp hn
    subst h0
    rfl
  | succ fuel ih =>
    intro n hn
    by_cases hz : n = 0
    · subst hz
      rfl
    · have hdiv : n / 10 ≤ fuel := by
        have := Nat.div_lt_self (Nat.pos_of_ne_zero hz) (by norm_num : 1 < 10)
        omega
      simp [natDigitsAux, hz, digitsVal, ih _ hdiv]
      omega

theorem natDigits_val (n : ℕ) : digitsVal (natDigits n) = n :=
  natDigitsAux_val n n le_rfl

theorem natDigitsAux_lt_ten (fuel : ℕ) : ∀ n d : ℕ, d ∈ natDigitsAux fuel n → d < 10 := by
  induction fuel with
  | zero =>
    intro n d hd
    simp [natDigitsAux] at hd
  | succ fuel ih =>
    intro n d hd
    by_cases hz : n = 0
    · subst hz
      simp [natDigitsAux] at hd
    · simp [natDigitsAux, hz] at hd
      rcases hd with hd | hd
      · omega
      · exact ih _ _ hd

theorem digitChar_inj (d e : ℕ) (hd : d < 10) (he : e < 10)
    (h : digitChar d = digitChar e) : d = e := by
  interval_cases d <;> interval_cases e <;> simp_all [digitChar]

theorem map_digitChar_inj : ∀ l1 l2 : List ℕ, (∀ d ∈ l1, d < 10) → (∀ d ∈ l2, d < 10) →
    l1.map digitChar = l2.map digitChar → l1 = l2 := by
  intro l1
  induction l1 with
  | nil =>
    intro l2 _ _ h
    cases l2 with
    | nil => rfl
    | cons b bs => simp at h
  | cons a as ih =>
    intro l2 h1 h2 h
    cases l2 with
    | nil => simp at h
    | cons b bs =>
      simp only [List.map_cons, List.cons.injEq] at h
      have hab := digitChar_inj a b (h1 a (by simp)) (h2 b (by simp)) h.1
      subst hab
      have := ih bs (fun d hd => h1 d (by simp [hd])) (fun d hd => h2 d (by simp [hd])) h.2
      rw [this]

theorem asString_data (l : List Char) : (List.asString l).data = l := rfl

theorem natStr_inj (m n : ℕ) (h : natStr m = natStr n) : m = n := by
  by_cases hm : m = 0 <;> by_cases hn : n = 0
  · omega
  · exfalso
    simp only [natStr, hm, hn, if_true, if_false] at h
    have hdata := congrArg String.data h
    simp only [asString_data] at hdata
    have hrev := congrArg List.reverse hdata
    simp only [List.reverse_reverse] at hrev
    have hlist : ([0] : List ℕ).map digitChar = (natDigits n).map digitChar := by
      simpa [digitChar] using hrev
    have := map_digitChar_inj [0] (natDigits n) (by simp)
      (fun d hd => natDigitsAux_lt_ten n n d hd) hlist
    have hval := natDigits_val n
    rw [← this] at hval
    simp [digitsVal] at hval
    exact hn hval.symm
  · exfalso
    simp only [natStr, hm, hn, if_true, if_false] at h
    have hdata := congrArg String.data h
    simp only [asString_data] at hdata
    have hrev := congrArg List.reverse hdata
    simp only [List.reverse_reverse] at hrev
    have hlist : (natDigits m).map digitChar = ([0] : List ℕ).map digitChar := by
      simpa [digitChar] using hrev
    have := map_digitChar_inj (natDigits m) [0]
      (fun d hd => natDigitsAux_lt_ten m m d hd) (by simp) hlist
    have hval := natDigits_val m
    rw [this] at hval
    simp [digitsVal] at hval
    exact hm hval.symm
  · simp only [natStr, hm, hn, if_false] at h
    have hdata := congrArg String.data h
    simp only [asString_data] at hdata
    have hrev := congrArg List.reverse hdata
    simp only [List.reverse_reverse] at hrev
    have := map_digitChar_inj (natDigits m) (natDigits n)
      (fun d hd => natDigitsAux_lt_ten m m d hd)
      (fun d hd => natDigitsAux_lt_ten n n d hd) hrev
    have hm2 := natDigits_val m
    rw [this, natDigits_val n] at hm2
    exact hm2.symm

theorem string_append_data (a b : String) : (a ++ b).data = a.data ++ b.data := by
  cases a
  cases b
  rfl

theorem string_data_inj (a b : String) (h : a.data = b.data) : a = b := by
  cases a
  cases b
  exact congrArg String.mk h

theorem string_mid_cancel (p q s1 s2 : String) (h : p ++ s1 ++ q = p ++ s2 ++ q) :
    s1 = s2 := by
  have hd := congrArg String.data h
  simp only [string_append_data] at hd
  exact string_data_inj s1 s2
    (List.append_cancel_left (List.append_cancel_right hd))

theorem intStr_nonneg (i : ℤ) (h : 0 ≤ i) : intStr i = natStr i.toNat := by
  simp [intStr, not_lt.mpr h]

theorem recordingPath_inj (t1 t2 : ℚ) (h1 : 0 ≤ t1) (h2 : 0 ≤ t2)
    (hne : pyInt t1 ≠ pyInt t2) : recordingPath t1 ≠ recordingPath t2 := by
  intro h
  apply hne
  have hp1 : (0 : ℤ) ≤ pyInt t1 := by
    simp only [pyInt, if_pos h1]
    exact Int.floor_nonneg.mpr h1
  have hp2 : (0 : ℤ) ≤ pyInt t2 := by
    simp only [pyInt, if_pos h2]
    exact Int.floor_nonneg.mpr h2
  have hmid : intStr (pyInt t1) = intStr (pyInt t2) := by
    have := string_mid_cancel (recordings_dir ++ "/" ++ "recording_") ".mp4"
      (intStr (pyInt t1)) (intStr (pyInt t2)) ?_
    · exact this
    · simpa [recordingPath, recordingName, String.append_assoc] using h
  rw [intStr_nonneg _ hp1, intStr_nonneg _ hp2] at hmid
  have := natStr_inj _ _ hmid
  omega

theorem countCreates_append (e1 e2 : List Effect) :
    countCreates (e1 ++ e2) = countCreates e1 + countCreates e2 := by
  simp [countCreates, List.filter_append]

theorem on_track_creates (sess : Session) (k : String) :
    countCreates (on_track sess k).2 + createBudget (on_track sess k).1.recorder ≤
      createBudget sess.recorder := by
  cases hr : sess.recorder <;> by_cases hk : k = "video" <;>
    simp [on_track, hr, hk, countCreates, createBudget]

theorem on_track_path (sess : Session) (k : String) :
    (on_track sess k).1.recording_path = sess.recording_path ∧
    (on_track sess k).2.all (effPathOk sess.recording_path) = true := by
  cases hr : sess.recorder <;> by_cases hk : k = "video" <;>
    simp [on_track, hr, hk, effPathOk]

theorem runTracks_creates (sess : Session) (kinds : List String) :
    countCreates (runTracks sess kinds).2 ≤ createBudget sess.recorder := by
  induction kinds generalizing sess with
  | nil => simp [runTracks, countCreates]
  | cons k rest ih =>
    have h1 := on_track_creates sess k
    have h2 := ih (on_track sess k).1
    simp only [runTracks, countCreates_append]
    omega

theorem runTracks_path (sess : Session) (kinds : List String) :
    (runTracks sess kinds).2.all (effPathOk sess.recording_path) = true := by
  induction kinds generalizing sess with
  | nil => simp [runTracks]
  | cons k rest ih =>
    have h1 := on_track_path sess k
    have h2 := ih (on_track sess k).1
    rw [h1.1] at h2
    simp [runTracks, List.all_append, h1.2, h2]

/-- C9 counterexample: the claim says any two concurrently running sessions
get distinct recording file names; but the name depends only on
`int(time.time())`, so two distinct session start instants inside the same
epoch second — here 1000.5 and 1000.75 — yield the same path
`recordings/recording_1000.mp4`. -/
theorem C9_counterexample :
    (2001 / 2 : ℚ) ≠ (4003 / 4 : ℚ) ∧
    recordingPath (2001 / 2) = recordingPath (4003 / 4) := by
  constructor
  · norm_num
  · have e1 : pyInt (2001 / 2) = 1000 := by norm_num [pyInt]
    have e2 : pyInt (4003 / 4) = 1000 := by norm_num [pyInt]
    simp [recordingPath, recordingName, e1, e2]

/-- C9 amended: each session writes at most one media file (at most one
recorder is ever created), every recorder effect targets the session's single
start-time-derived path `recordings/recording_<epoch>.mp4`, the recordings
directory is created if absent and left alone if present, and two sessions'
recording paths are distinct provided their start times fall in distinct
epoch seconds (`int(t1) ≠ int(t2)`) — sessions starting within the same
second share one path. -/
theorem C9_amended_recording_files (t1 t2 : ℚ) (kinds : List String)
    (fs : List String) (h1 : 0 ≤ t1) (h2 : 0 ≤ t2)
    (hne : pyInt t1 ≠ pyInt t2) :
    recordingPath t1 ≠ recordingPath t2 ∧
    recordings_dir ∈ makedirs fs recordings_dir ∧
    (recordings_dir ∈ fs → makedirs fs recordings_dir = fs) ∧
    countCreates (runTracks (initialSession t1) kinds).2 ≤ 1 ∧
    (runTracks (initialSession t1) kinds).2.all (effPathOk (recordingPath t1)) = true := by
  refine ⟨recordingPath_inj t1 t2 h1 h2 hne, ?_, ?_, ?_, ?_⟩
  · by_cases hfs : recordings_dir ∈ fs <;> simp [makedirs, hfs]
  · intro hfs
    simp [makedirs, hfs]
  · exact runTracks_creates (initialSession t1) kinds
  · exact runTracks_path (initialSession t1) kinds

/-- Witness for C9 amended at the concrete start instants 0 and 1 (distinct
epoch seconds), one video track, and a directory set already holding the
recordings directory. -/
theorem C9_amended_recording_files_witness :
    recordingPath 0 ≠ recordingPath 1 ∧
    recordings_dir ∈ makedirs [recordings_dir] recordings_dir ∧
    (recordings_dir ∈ [recordings_dir] →
      makedirs [recordings_dir] recordings_dir = [recordings_dir]) ∧
    countCreates (runTracks (initialSession 0) ["video"]).2 ≤ 1 ∧
    (runTracks (initialSession 0) ["video"]).2.all (effPathOk (recordingPath 0)) = true :=
  C9_amended_recording_files 0 1 ["video"] [recordings_dir]
    (by decide) (by decide) (by decide)
